import Mathlib

/-
Verification development for loopchain's per-channel coordination core
(`loopchain/channel/channel_service.py`).  The Python class `ChannelService`
is shallowly embedded: its observable per-channel state becomes the
`ChannelService` structure, external side effects (RPC calls, broadcasts,
timer arms) are recorded as values of the `Effect` type, and each method of
interest becomes a pure Lean function from the pre-state (plus the
configuration flags and, where needed, an oracle for the external world) to
the post-state together with the list of effects it emitted.  A result of
`none` models an uncaught Python exception (e.g. an `AttributeError` from
dereferencing `None`).
-/

namespace LoopchainChannel

/-- Modelled from the spec (§3 PeerRecord, §6 Peer Registry): a peer record
as the channel core observes it, a peer id and a network target.  The real
`PeerObject` lives in `loopchain.baseservice`, outside the embedded file. -/
structure Peer where
  peer_id : String
  target : String
  deriving DecidableEq, Repr

/-- Modelled from the spec (§6 Peer Registry): the peer registry
(`PeerManager`), reduced to the interface the embedded methods consume: the
set of known peers and the current leader pointer.  `PeerManager` itself is
not under the embedded sources. -/
structure PeerManager where
  peers : List Peer
  leader : Option Peer
  deriving DecidableEq, Repr

/-- Modelled from the spec (§6 `getPeer(id)`): look a peer up by id;
`None` when the id is unknown, as `PeerManager.get_peer(new_leader_id, None)`
returns in the Python. -/
def PeerManager.get_peer (pm : PeerManager) (pid : String) : Option Peer :=
  pm.peers.find? (fun p => p.peer_id == pid)

/-- Modelled from the spec (§6 `setLeader(record)`): replace the registry's
leader pointer, as `PeerManager.set_leader_peer` does. -/
def PeerManager.set_leader_peer (pm : PeerManager) (p : Peer) : PeerManager :=
  { pm with leader := some p }

/-- Modelled from the spec (§2, §6 `getLeader`): read the registry's current
leader pointer; `None` when no leader is recorded. -/
def PeerManager.get_leader_peer (pm : PeerManager) : Option Peer :=
  pm.leader

/-- The two peer types of `loopchain_pb2` used by the channel service. -/
inductive PeerType
  | PEER
  | BLOCK_GENERATOR
  deriving DecidableEq, Repr

/-- The channel state machine's states.  Modelled from the spec (§3
ChannelState, §4.5); `channel_statemachine.py` is not under the embedded
sources, but the source file itself compares `state_machine.state` against
the string "SubscribeNetwork", fixing the state names. -/
inductive ChannelSMState
  | Boot
  | EvaluateNetwork
  | SubscribeNetwork
  | BlockSync
  | ConsensusLeader
  | ConsensusFollower
  | LeaderComplain
  | ShuttingDown
  deriving DecidableEq, Repr

/-- The configuration flags of `loopchain.configure` read by the embedded
methods, plus the node-capability predicates derived from
`ChannelProperty().node_type`. -/
structure Conf where
  consensus_algorithm_lft : Bool
  enable_rep_radio_station : Bool
  node_function_vote : Bool
  node_type_community : Bool
  allow_make_empty_block : Bool
  deriving DecidableEq, Repr

/-- The `conf.ALL_GROUP_ID` constant, treated as an opaque name. -/
def ALL_GROUP_ID : String := "all_group_id"

/-- Externally observable calls the channel service makes.  Each constructor
records one call site of `channel_service.py` together with the arguments
the claims inspect. -/
inductive Effect
  | announce_new_leader (complained_leader_id : String) (new_leader_id : String)
  | subscribe_peer_call (peer_id : String)
  | subscribe_rs_call
  | subscribe_target_call
  | leader_complain_rs (group_id : String) (announce_new_peer_flag : Bool)
  | block_height_sync_call
  | init_block_chain (is_leader : Bool)
  | rebuild_block_call
  | generate_genesis
  | start_block_gen_scheduler
  deriving DecidableEq, Repr

/-- The observable state of one `ChannelService` instance: the channel
properties fixed at `init`, the peer registry, the block manager's peer
type and epoch leader, the local chain height (−1 when no block exists yet,
mirroring `blockchain.block_height`), the state machine's current state,
and a count of warning records emitted on rejected requests. -/
structure ChannelService where
  peer_id : String
  peer_target : String
  radio_station_target : String
  peer_manager : PeerManager
  peer_type : PeerType
  epoch_leader : Option String
  block_height : Int
  machine : ChannelSMState
  warnings : Nat
  deriving DecidableEq, Repr

/-- `blockchain.last_block` seen through its header height: `None` exactly
when the chain is empty (`block_height == -1`), otherwise the height of the
last block.  Dereferencing it while `None` is the Python `AttributeError`. -/
def ChannelService.last_block_header_height (s : ChannelService) : Option Int :=
  if 0 ≤ s.block_height then some s.block_height else none

/-- The height guard shared by `reset_leader` (line 674) and
`set_new_leader` (line 722): Python's short-circuiting
`block_height > 0 and block_height != last_block.header.height + 1`.
`some true` means the guard fires (reject), `some false` means it passes,
`none` means the `AttributeError` of reading `last_block.header` while the
chain has no last block (only reachable when `block_height > 0`). -/
def leader_height_guard (s : ChannelService) (block_height : Int) : Option Bool :=
  if 0 < block_height then
    match s.last_block_header_height with
    | none => none
    | some lh => if block_height = lh + 1 then some false else some true
  else
    some false

/-- `ChannelService.reset_leader(new_leader_id, block_height=0)`
(lines 670–714).  Order of the source: look up the new leader, reject with a
warning when the height guard fires, reject with a warning when the id is
unknown, then look up self (crash when self is unknown), replace the
registry's leader pointer, and branch on whether the new leader's target is
self's target: the leader branch turns the state machine to leader
(`ConsensusLeader`, spec §4.3) and — unless the lft agreement algorithm is
configured, and only when `ENABLE_REP_RADIO_STATION` — announces the change
using `get_leader_peer().peer_id` (read back after the pointer was already
replaced) as the complained-leader argument; the follower branch turns the
state machine to `ConsensusFollower` and subscribes to the new leader.
Both branches then store the peer type and set the epoch leader. -/
def reset_leader (cfg : Conf) (s : ChannelService) (new_leader_id : String)
    (block_height : Int) : Option (ChannelService × List Effect) :=
  let leader_peer := s.peer_manager.get_peer new_leader_id
  match leader_height_guard s block_height with
  | none => none
  | some true => some ({ s with warnings := s.warnings + 1 }, [])
  | some false =>
    match leader_peer with
    | none => some ({ s with warnings := s.warnings + 1 }, [])
    | some lp =>
      match s.peer_manager.get_peer s.peer_id with
      | none => none
      | some self_peer =>
        let pm := s.peer_manager.set_leader_peer lp
        match pm.get_leader_peer with
        | none => none
        | some peer_leader =>
          if self_peer.target = peer_leader.target then
            let effs : List Effect :=
              if cfg.consensus_algorithm_lft = false ∧
                  cfg.enable_rep_radio_station = true then
                [Effect.announce_new_leader peer_leader.peer_id new_leader_id]
              else
                []
            some ({ s with
                      peer_manager := pm,
                      machine := ChannelSMState.ConsensusLeader,
                      peer_type := PeerType.BLOCK_GENERATOR,
                      epoch_leader := some peer_leader.peer_id }, effs)
          else
            some ({ s with
                      peer_manager := pm,
                      machine := ChannelSMState.ConsensusFollower,
                      peer_type := PeerType.PEER,
                      epoch_leader := some peer_leader.peer_id },
                  [Effect.subscribe_peer_call peer_leader.peer_id])

/-- `ChannelService.set_new_leader(new_leader_id, block_height=0)`
(lines 716–749): the same height and known-peer guards as `reset_leader`
(its guard reads `last_block.height`, the same value), then it only replaces
the registry's leader pointer and flips the logger flag — no peer-type,
epoch, state-machine or subscription side effect (those calls are commented
out in the source). -/
def set_new_leader (s : ChannelService) (new_leader_id : String)
    (block_height : Int) : Option (ChannelService × List Effect) :=
  let leader_peer := s.peer_manager.get_peer new_leader_id
  match leader_height_guard s block_height with
  | none => none
  | some true => some ({ s with warnings := s.warnings + 1 }, [])
  | some false =>
    match leader_peer with
    | none => some ({ s with warnings := s.warnings + 1 }, [])
    | some lp =>
      match s.peer_manager.get_peer s.peer_id with
      | none => none
      | some self_peer =>
        let pm := s.peer_manager.set_leader_peer lp
        match pm.get_leader_peer with
        | none => none
        | some peer_leader =>
          if self_peer.target = peer_leader.target then
            some ({ s with peer_manager := pm }, [])
          else
            some ({ s with peer_manager := pm }, [])

/-- `ChannelService.generate_genesis_block` (lines 419–428): a no-op unless
this node's peer type is `BLOCK_GENERATOR`; a no-op when
`blockchain.block_height > -1` (a block already exists); otherwise asks the
chain store to generate the genesis block.  Generation of the height-0
block itself is modelled from the spec (§4.4: heights are "monotonically
increasing non-negative integers with genesis = 0"), `blockchain` being
outside the embedded sources. -/
def generate_genesis_block (s : ChannelService) : ChannelService × List Effect :=
  if s.peer_type ≠ PeerType.BLOCK_GENERATOR then
    (s, [])
  else if s.block_height > -1 then
    (s, [])
  else
    ({ s with block_height := 0 }, [Effect.generate_genesis])

/-- `ChannelService.__ready_to_height_sync(is_leader)` (lines 604–609):
always calls `blockchain.init_block_chain(is_leader)` (external, recorded as
an effect), then calls `block_manager.rebuild_block()` only when
`block_height > -1`; at height −1 the rebuild is skipped and nothing else
happens — no error path exists. -/
def ready_to_height_sync (s : ChannelService) ( is_leader : Bool) : List Effect :=
  Effect.init_block_chain is_leader ::
    (if s.block_height > -1 then [Effect.rebuild_block_call] else [])

/-- `ChannelService.set_peer_type_in_channel` (lines 580–603): read the
registry's leader pointer; when this node supports the Vote function and
its peer id equals the leader's, store peer type `BLOCK_GENERATOR` and run
`__ready_to_height_sync(True)`, otherwise leave the stored peer type as it
is and run `__ready_to_height_sync(False)`.  With no leader recorded the
Python dereferences `None` when Vote is supported (line 587) or when the
lft algorithm is configured (line 596): `none` result. -/
def set_peer_type_in_channel (cfg : Conf) (s : ChannelService) :
    List Effect × Option ChannelService :=
  match s.peer_manager.get_leader_peer with
  | none =>
    if cfg.node_function_vote then
      ([], none)
    else if cfg.consensus_algorithm_lft then
      ([], none)
    else
      (ready_to_height_sync s false, some s)
  | some peer_leader =>
    if cfg.node_function_vote ∧ s.peer_id = peer_leader.peer_id then
      let s1 := { s with peer_type := PeerType.BLOCK_GENERATOR }
      (ready_to_height_sync s1 true, some s1)
    else
      (ready_to_height_sync s false, some s)

/-- `ChannelService.evaluate_network` (lines 230–236): run
`set_peer_type_in_channel`, then fire the state-machine trigger
`subscribe_network()` when the stored peer type is `BLOCK_GENERATOR`, else
the trigger `block_sync()`.  Modelled from the spec (§4.5) and from the
source's own comparison of `state_machine.state` with "SubscribeNetwork":
the `subscribe_network` trigger enters state `SubscribeNetwork` and the
`block_sync` trigger enters state `BlockSync`. -/
def evaluate_network (cfg : Conf) (s : ChannelService) :
    List Effect × Option ChannelService :=
  match set_peer_type_in_channel cfg s with
  | (effs, none) => (effs, none)
  | (effs, some s1) =>
    if s1.peer_type = PeerType.BLOCK_GENERATOR then
      (effs, some { s1 with machine := ChannelSMState.SubscribeNetwork })
    else
      (effs, some { s1 with machine := ChannelSMState.BlockSync })

/-- `ChannelService.subscribe_network` (lines 237–261), the activity of the
`SubscribeNetwork` state: voting nodes subscribe to the radio station when
`ENABLE_REP_RADIO_STATION` and to the sync-target peer when their peer type
is `PEER`; non-voting nodes subscribe to the radio station (citizen path);
then `generate_genesis_block()`; with the lft algorithm configured the
source dereferences `self.__consensus`, which is always `None` (its
initialisation is commented out): `none` result; otherwise, when
`ALLOW_MAKE_EMPTY_BLOCK`, the block-generation scheduler is started; and
finally the `complete_sync` trigger fires.  Modelled from the spec (§4.5
"SubscribeNetwork -> ConsensusLeader | ConsensusFollower, on completed
sync, by resolved role"): `complete_sync` enters `ConsensusLeader` when the
peer type is `BLOCK_GENERATOR` and `ConsensusFollower` otherwise. -/
def subscribe_network (cfg : Conf) (s : ChannelService) :
    List Effect × Option ChannelService :=
  let sub_effs : List Effect :=
    if cfg.node_function_vote then
      (if cfg.enable_rep_radio_station then [Effect.subscribe_rs_call] else []) ++
        (if s.peer_type = PeerType.PEER then [Effect.subscribe_target_call] else [])
    else
      [Effect.subscribe_rs_call]
  let g := generate_genesis_block s
  if cfg.consensus_algorithm_lft then
    (sub_effs ++ g.2, none)
  else
    let sched_effs : List Effect :=
      if cfg.allow_make_empty_block then [Effect.start_block_gen_scheduler] else []
    ((sub_effs ++ g.2) ++ sched_effs,
      some { g.1 with
               machine :=
                 if g.1.peer_type = PeerType.BLOCK_GENERATOR then
                   ChannelSMState.ConsensusLeader
                 else
                   ChannelSMState.ConsensusFollower })

/-- One network evaluation followed by the activity of the state the
machine enters, as the state machine sequences them: the returned list is
the sequence of states entered after `EvaluateNetwork` (the `BlockSync`
state's own activity, `block_height_sync_channel`, is a separate entry
point and is not run here). -/
def evaluate_network_journey (cfg : Conf) (s : ChannelService) :
    List ChannelSMState × List Effect × Option ChannelService :=
  match evaluate_network cfg s with
  | (effs, none) => ([], effs, none)
  | (effs, some s1) =>
    if s1.machine = ChannelSMState.SubscribeNetwork then
      match subscribe_network cfg s1 with
      | (effs2, none) => ([ChannelSMState.SubscribeNetwork], effs ++ effs2, none)
      | (effs2, some s2) =>
        ([ChannelSMState.SubscribeNetwork, s2.machine], effs ++ effs2, some s2)
    else
      ([ChannelSMState.BlockSync], effs, some s1)

/-- The external world as `block_height_sync_channel` observes it:
whether `StubManager.get_stub_manager_to_server(target)` yields a stub for
a given target, whether `self.__radio_station_stub` is set, and what
`PeerManager.leader_complain_to_rs` (outside the embedded sources) returns. -/
structure World where
  stub_of : String → Bool
  rs_stub : Bool
  complain_result : Option Peer

/-- Lines 620–630 of `block_height_sync_channel`: the sync target and its
stub are the current leader's target and a fresh stub to it when a leader
is recorded, else the radio-station target and the radio-station stub. -/
def sync_target_and_stub (w : World) (s : ChannelService) : String × Bool :=
  match s.peer_manager.get_leader_peer with
  | some pl => (pl.target, w.stub_of pl.target)
  | none => (s.radio_station_target, w.rs_stub)

/-- Lines 649–663 of `block_height_sync_channel`, after the target check
and the optional complaint: when this node supports Vote and the (possibly
re-elected) leader is missing or is this node, become `BLOCK_GENERATOR` and
take the self peer as leader; otherwise run the block fetch
(`block_manager.block_height_sync`, recorded as an effect).  Then, in the
delayed-leader-announcement case and only for a CommunityNode, broadcast
the old→new leader change; dereferencing a missing old or new leader there
is the Python `AttributeError`: `none` result. -/
def sync_tail (cfg : Conf) (s : ChannelService) (peer_leader : Option Peer)
    (is_delay : Bool) (old_leader : Option Peer) :
    List Effect × Option ChannelService :=
  let cond2 : Bool :=
    cfg.node_function_vote &&
      (match peer_leader with
       | none => true
       | some pl => pl.peer_id == s.peer_id)
  let s2 := if cond2 then { s with peer_type := PeerType.BLOCK_GENERATOR } else s
  let peer_leader2 :=
    if cond2 then s.peer_manager.get_peer s.peer_id else peer_leader
  let sync_effs : List Effect :=
    if cond2 then [] else [Effect.block_height_sync_call]
  if is_delay && cfg.node_type_community then
    match old_leader, peer_leader2 with
    | some ol, some pl2 =>
      (sync_effs ++ [Effect.announce_new_leader ol.peer_id pl2.peer_id], some s2)
    | _, _ => (sync_effs, none)
  else
    (sync_effs, some s2)

/-- `ChannelService.block_height_sync_channel` (lines 611–663): resolve the
sync target; when it is this node's own target, do nothing at all;
otherwise, when the target's stub is missing, record a leader complaint to
the radio station with `is_announce_new_peer=False` and continue with the
complaint's result as leader (delayed-announcement mode); then run
`sync_tail`.  The stub re-resolution to the re-elected leader's target
(lines 641–647) only feeds the external block fetch and is not separately
observable here. -/
def block_height_sync_channel (cfg : Conf) (w : World) (s : ChannelService) :
    List Effect × Option ChannelService :=
  let ts := sync_target_and_stub w s
  if ts.1 = s.peer_target then
    ([], some s)
  else if ts.2 then
    sync_tail cfg s s.peer_manager.get_leader_peer false none
  else
    let r := sync_tail cfg s w.complain_result true s.peer_manager.get_leader_peer
    (Effect.leader_complain_rs ALL_GROUP_ID false :: r.1, r.2)

/-- The exception classes distinguished by the done-callback of
`__subscribe_call_from_citizen` (lines 500–508). -/
inductive CitizenException
  | notImplementedError
  | connectionError
  | otherError
  deriving DecidableEq, Repr

/-- What the done-callback schedules in response. -/
inductive CitizenAction
  | rest_fallback_subscribe
  | citizen_push_subscribe
  | enter_subscribe_network_state
  deriving DecidableEq, Repr

/-- `_handle_exception` inside `__subscribe_call_from_citizen`
(lines 500–508): a `NotImplementedError` schedules exactly one
`__subscribe_call_by_rest_stub` future (and nothing re-runs the push
subscription); a `ConnectionError` fires the `subscribe_network` trigger
unless the machine is already in the `SubscribeNetwork` state; any other
outcome schedules nothing. -/
def handle_citizen_subscribe_error (machine : ChannelSMState)
    (e : CitizenException) : List CitizenAction :=
  match e with
  | CitizenException.notImplementedError => [CitizenAction.rest_fallback_subscribe]
  | CitizenException.connectionError =>
    if machine ≠ ChannelSMState.SubscribeNetwork then
      [CitizenAction.enter_subscribe_network_state]
    else
      []
  | CitizenException.otherError => []

/-- A transaction as `score_invoke` consumes it: its hash and the result of
`TransactionSerializer.to_full_data` (external serializer), kept opaque. -/
structure TxRecord where
  hash : String
  full_data : String
  deriving DecidableEq, Repr

/-- A block header as the commit pipeline reads it. -/
structure BlockHeaderRec where
  height : Int
  hash : String
  prev_hash : Option String
  timestamp : Nat
  deriving DecidableEq, Repr

/-- A block value: header, transactions, and the commit-state entry the
pipeline attaches (absent until attached). -/
structure BlockRec where
  header : BlockHeaderRec
  transactions : List TxRecord
  commit_state : Option String
  deriving DecidableEq, Repr

/-- One entry of the invoke request's transaction list. -/
structure InvokeTx where
  method : String
  params : String
  deriving DecidableEq, Repr

/-- The `block` part of the invoke request built by `score_invoke`
(lines 797–805). -/
structure InvokeRequestBlock where
  blockHeight : Int
  blockHash : String
  prevBlockHash : String
  timestamp : Nat
  deriving DecidableEq, Repr

/-- The invoke request sent to the execution engine. -/
structure InvokeRequest where
  block : InvokeRequestBlock
  transactions : List InvokeTx
  deriving DecidableEq, Repr

/-- The execution engine's response to `invoke`: a success flag, the state
root hash, and the per-transaction results (tx hash to result). -/
structure InvokeResponse where
  success : Bool
  stateRootHash : String
  txResults : List (String × String)
  deriving DecidableEq, Repr

/-- The fatal error `response_to_json_query` raises on a non-success
engine response. -/
def invoke_fatal_error : String := "FatalException: invoke returned non-success status"

/-- Modelled from the spec (§4.4, §7 "Execution-engine failure"):
`response_to_json_query` lives in `loopchain.utils.icon_service`, outside
the embedded sources; per the spec it propagates a non-success invoke
response as a fatal pipeline error and passes a success response through. -/
def response_to_json_query (r : InvokeResponse) : Except String InvokeResponse :=
  if r.success then Except.ok r else Except.error invoke_fatal_error

/-- The invoke request `score_invoke` builds (lines 786–806): method
`icx_sendTransaction` with each transaction's full data, and the block's
height, hash, previous hash (empty string when absent) and timestamp. -/
def score_invoke_request (b : BlockRec) : InvokeRequest :=
  { block :=
      { blockHeight := b.header.height,
        blockHash := b.header.hash,
        prevBlockHash :=
          match b.header.prev_hash with
          | some p => p
          | none => "",
        timestamp := b.header.timestamp },
    transactions :=
      b.transactions.map
        (fun tx => { method := "icx_sendTransaction", params := tx.full_data }) }

/-- `ChannelService.score_invoke(_block)` (lines 785–817): build the
request, call the engine, pass the response through
`response_to_json_query` — which raises on a non-success status, so
nothing after it runs — and only then build the new block value with the
returned state root hash attached as commit state, returning it with the
transaction results. -/
def score_invoke (engine : InvokeRequest → InvokeResponse) (b : BlockRec) :
    Except String (BlockRec × List (String × String)) :=
  let request := score_invoke_request b
  let response := engine request
  match response_to_json_query response with
  | Except.error e => Except.error e
  | Except.ok r =>
    let new_block := { b with commit_state := some r.stateRootHash }
    Except.ok (new_block, r.txResults)

/-- A concrete peer: this node in the samples below. -/
def pA : Peer := { peer_id := "pA", target := "tA" }

/-- A concrete peer distinct from this node. -/
def pB : Peer := { peer_id := "pB", target := "tB" }

/-- A concrete channel service state: node `pA`, peers `pA` and `pB` known,
leader `pA`, chain height 10. -/
def sampleService : ChannelService :=
  { peer_id := "pA",
    peer_target := "tA",
    radio_station_target := "tRS",
    peer_manager := { peers := [pA, pB], leader := some pA },
    peer_type := PeerType.PEER,
    epoch_leader := some "pA",
    block_height := 10,
    machine := ChannelSMState.EvaluateNetwork,
    warnings := 0 }

/-- A concrete configuration: voting community node, no lft algorithm,
radio station enabled, no empty-block scheduler. -/
def sampleConf : Conf :=
  { consensus_algorithm_lft := false,
    enable_rep_radio_station := true,
    node_function_vote := true,
    node_type_community := true,
    allow_make_empty_block := false }

/-- `sampleService` with `pB` as the recorded leader, so the resolved sync
target is not this node's own target. -/
def followerLeaderService : ChannelService :=
  { sampleService with peer_manager := { peers := [pA, pB], leader := some pB } }

/-- A block-generator node with an empty chain (height −1). -/
def genesisService : ChannelService :=
  { sampleService with block_height := -1, peer_type := PeerType.BLOCK_GENERATOR }

/-- A world in which no target is reachable and a complaint yields no
leader. -/
def wUnreachable : World :=
  { stub_of := fun _ => false, rs_stub := false, complain_result := none }

/-- A concrete block for the commit-pipeline samples. -/
def sampleBlock : BlockRec :=
  { header := { height := 3, hash := "h3", prev_hash := some "h2", timestamp := 7 },
    transactions := [{ hash := "tx1", full_data := "d1" }],
    commit_state := none }

/-- An execution engine that always reports failure. -/
def failEngine : InvokeRequest → InvokeResponse :=
  fun _ => { success := false, stateRootHash := "", txResults := [] }

/-- A looked-up peer carries the id it was looked up by
(`PeerManager.get_peer` finds by peer id). -/
theorem PeerManager.get_peer_id (pm : PeerManager) (pid : String) (p : Peer)
    (h : pm.get_peer pid = some p) : p.peer_id = pid := by
  unfold PeerManager.get_peer at h
  have hfind := List.find?_some h
  exact eq_of_beq hfind

/-- `generate_genesis_block` never changes the stored peer type. -/
theorem generate_genesis_preserves_peer_type (s : ChannelService) :
    (generate_genesis_block s).1.peer_type = s.peer_type := by
  unfold generate_genesis_block
  split
  · rfl
  · split <;> rfl

/-- C9: `reset_leader` and `set_new_leader` accept every `blockHeight ≤ 0`
as an unconditional reassignment, not only `blockHeight == 0`: the height
guard `block_height > 0 and block_height != last_height + 1` never fires
for a non-positive height, so the whole call computes exactly the same
result as with `blockHeight == 0`. -/
theorem nonpositive_height_reassignment (cfg : Conf) (s : ChannelService)
    (nid : String) (bh : Int) (h : bh ≤ 0) :
    reset_leader cfg s nid bh = reset_leader cfg s nid 0 ∧
    set_new_leader s nid bh = set_new_leader s nid 0 := by
  have hg : leader_height_guard s bh = leader_height_guard s 0 := by
    unfold leader_height_guard
    rw [if_neg (by omega : ¬ (0:Int) < bh), if_neg (by omega : ¬ (0:Int) < 0)]
  constructor
  · unfold reset_leader
    rw [hg]
  · unfold set_new_leader
    rw [hg]

/-- Witness for C9 at `blockHeight = -7`. -/
theorem nonpositive_height_reassignment_witness :
    (-7 : Int) ≤ 0 ∧
    reset_leader sampleConf sampleService "pB" (-7) =
      reset_leader sampleConf sampleService "pB" 0 ∧
    set_new_leader sampleService "pB" (-7) = set_new_leader sampleService "pB" 0 :=
  ⟨by decide,
   nonpositive_height_reassignment sampleConf sampleService "pB" (-7) (by decide)⟩

/-- C4: when the execution engine's `invoke` returns a non-success status,
`score_invoke` propagates the fatal error raised by
`response_to_json_query`: no block value with attached commit state and no
transaction results are produced. -/
theorem score_invoke_failure_propagates (engine : InvokeRequest → InvokeResponse)
    (b : BlockRec) (h : (engine (score_invoke_request b)).success = false) :
    score_invoke engine b = Except.error invoke_fatal_error := by
  simp [score_invoke, response_to_json_query, h]

/-- Witness for C4 with an engine that always fails. -/
theorem score_invoke_failure_propagates_witness :
    (failEngine (score_invoke_request sampleBlock)).success = false ∧
    score_invoke failEngine sampleBlock = Except.error invoke_fatal_error :=
  ⟨rfl, score_invoke_failure_propagates failEngine sampleBlock rfl⟩

/-- C6: a `NotImplementedError` from the citizen push subscription schedules
the REST fallback subscribe exactly once and never re-schedules the push
path; a `ConnectionError` fires the `subscribe_network` trigger exactly when
the machine is not already in the `SubscribeNetwork` state. -/
theorem citizen_subscribe_error_routing (st : ChannelSMState) :
    handle_citizen_subscribe_error st CitizenException.notImplementedError =
      [CitizenAction.rest_fallback_subscribe] ∧
    CitizenAction.citizen_push_subscribe ∉
      handle_citizen_subscribe_error st CitizenException.notImplementedError ∧
    (st ≠ ChannelSMState.SubscribeNetwork →
      handle_citizen_subscribe_error st CitizenException.connectionError =
        [CitizenAction.enter_subscribe_network_state]) ∧
    handle_citizen_subscribe_error ChannelSMState.SubscribeNetwork
      CitizenException.connectionError = [] := by
  cases st <;>
    first
      | exact ⟨rfl, by decide, fun h => absurd rfl h, rfl⟩
      | exact ⟨rfl, by decide, fun h => by decide, rfl⟩

/-- Witness for C6 in the `Boot` state. -/
theorem citizen_subscribe_error_routing_witness :
    ChannelSMState.Boot ≠ ChannelSMState.SubscribeNetwork ∧
    handle_citizen_subscribe_error ChannelSMState.Boot
        CitizenException.connectionError =
      [CitizenAction.enter_subscribe_network_state] ∧
    handle_citizen_subscribe_error ChannelSMState.Boot
        CitizenException.notImplementedError =
      [CitizenAction.rest_fallback_subscribe] :=
  ⟨by decide,
   (citizen_subscribe_error_routing ChannelSMState.Boot).2.2.1 (by decide),
   (citizen_subscribe_error_routing ChannelSMState.Boot).1⟩

/-- C7: when the resolved block-sync target is this node's own endpoint,
`block_height_sync_channel` does nothing at all: no effect is emitted
(no fetch, no complaint, no broadcast) and the state — peer registry and
chain included — is returned unchanged. -/
theorem sync_self_target_noop (cfg : Conf) (w : World) (s : ChannelService)
    (h : (sync_target_and_stub w s).1 = s.peer_target) :
    block_height_sync_channel cfg w s = ([], some s) := by
  simp only [block_height_sync_channel]
  rw [if_pos h]

/-- Witness for C7: the recorded leader is this node itself. -/
theorem sync_self_target_noop_witness :
    (sync_target_and_stub wUnreachable sampleService).1 = sampleService.peer_target ∧
    block_height_sync_channel sampleConf wUnreachable sampleService =
      ([], some sampleService) :=
  ⟨rfl, sync_self_target_noop sampleConf wUnreachable sampleService rfl⟩

/-- C8: a local chain height of −1 is routed to genesis creation and never
treated as a failure: for a block-generator node `generate_genesis_block`
generates the genesis block exactly when the height is −1 and is a no-op at
any height above −1, and `__ready_to_height_sync` at height −1 only
re-initialises the chain, skipping `rebuild_block` with no error path. -/
theorem genesis_height_routing (s : ChannelService) (lead : Bool)
    (hgen : s.peer_type = PeerType.BLOCK_GENERATOR)
    (hge : -1 ≤ s.block_height) :
    ((generate_genesis_block s).2 = [Effect.generate_genesis] ↔
        s.block_height = -1) ∧
    (s.block_height > -1 → generate_genesis_block s = (s, [])) ∧
    (s.block_height = -1 →
      ready_to_height_sync s lead = [Effect.init_block_chain lead] ∧
        Effect.rebuild_block_call ∉ ready_to_height_sync s lead) := by
  unfold generate_genesis_block ready_to_height_sync
  by_cases hh : s.block_height > -1
  · simp [hgen, hh]
    omega
  · have hm1 : s.block_height = -1 := by omega
    simp [hgen, hh, hm1]

/-- Witness for C8 at height −1. -/
theorem genesis_height_routing_witness :
    genesisService.peer_type = PeerType.BLOCK_GENERATOR ∧
    (-1 : Int) ≤ genesisService.block_height ∧
    ((generate_genesis_block genesisService).2 = [Effect.generate_genesis] ↔
        genesisService.block_height = -1) ∧
    (genesisService.block_height > -1 →
      generate_genesis_block genesisService = (genesisService, [])) ∧
    (genesisService.block_height = -1 →
      ready_to_height_sync genesisService true = [Effect.init_block_chain true] ∧
        Effect.rebuild_block_call ∉ ready_to_height_sync genesisService true) :=
  ⟨by decide, by decide,
   genesis_height_routing genesisService true (by decide) (by decide)⟩

/-- C1 counterexample: at `blockHeight = -3`, a height that is neither 0
nor `lastBlock.header.height + 1 = 11`, with `"pB"` a known peer,
`reset_leader` is not the claimed warning-only no-op: it succeeds, moving
the registry leader pointer and the epoch leader to `pB`, turning the state
machine to `ConsensusFollower`, and recording no warning. -/
theorem reset_leader_negative_height_not_rejected_cex :
    ((-3 : Int) ≠ 0 ∧ (-3 : Int) ≠ sampleService.block_height + 1 ∧
      (sampleService.peer_manager.get_peer "pB").isSome) ∧
    reset_leader sampleConf sampleService "pB" (-3) ≠
      some ({ sampleService with warnings := sampleService.warnings + 1 }, []) ∧
    reset_leader sampleConf sampleService "pB" (-3) =
      some ({ sampleService with
                peer_manager := { peers := [pA, pB], leader := some pB },
                machine := ChannelSMState.ConsensusFollower,
                epoch_leader := some "pB" },
            [Effect.subscribe_peer_call "pB"]) :=
  ⟨by decide, by decide, rfl⟩

/-- C1 (amended): `reset_leader(newLeaderId, blockHeight)` is a warning-only
no-op — every state component unchanged, one warning recorded, no effect
emitted — whenever the chain has a last block and either `blockHeight` is
positive and different from `lastBlock.header.height + 1`, or `newLeaderId`
does not resolve to a known peer.  (Non-positive heights, by contrast, are
accepted as unconditional reassignment; see the counterexample.) -/
theorem reset_leader_rejection_noop (cfg : Conf) (s : ChannelService)
    (nid : String) (bh : Int) (lh : Int)
    (hlast : s.last_block_header_height = some lh)
    (h : (0 < bh ∧ bh ≠ lh + 1) ∨ s.peer_manager.get_peer nid = none) :
    reset_leader cfg s nid bh = some ({ s with warnings := s.warnings + 1 }, []) := by
  rcases h with ⟨hpos, hne⟩ | hnone
  · have hguard : leader_height_guard s bh = some true := by
      simp [leader_height_guard, hpos, hlast, hne]
    simp [reset_leader, hguard]
  · have hguard : leader_height_guard s bh = some true ∨
        leader_height_guard s bh = some false := by
      by_cases hpos : 0 < bh
      · by_cases heq : bh = lh + 1
        · exact Or.inr (by simp [leader_height_guard, hpos, hlast, heq])
        · exact Or.inl (by simp [leader_height_guard, hpos, hlast, heq])
      · exact Or.inr (by simp [leader_height_guard, hpos])
    rcases hguard with hguard | hguard
    · simp [reset_leader, hguard]
    · simp [reset_leader, hguard, hnone]

/-- Witness for the amended C1: unknown peer id `"pX"` at a valid height. -/
theorem reset_leader_rejection_noop_witness :
    sampleService.last_block_header_height = some 10 ∧
    sampleService.peer_manager.get_peer "pX" = none ∧
    reset_leader sampleConf sampleService "pX" 0 =
      some ({ sampleService with warnings := sampleService.warnings + 1 }, []) :=
  ⟨rfl, rfl,
   reset_leader_rejection_noop sampleConf sampleService "pX" 0 10 rfl (Or.inr rfl)⟩

/-- C2: for a known `newLeaderId` and a `blockHeight` equal to
`lastBlock.header.height + 1` or to 0, `reset_leader` succeeds: afterwards
the registry leader pointer holds the looked-up peer (whose id is
`newLeaderId`), the epoch leader is `newLeaderId`, and the node's stored
peer type and state machine go to leader or follower according to whether
the new leader's target is this node's target. -/
theorem reset_leader_success (cfg : Conf) (s : ChannelService)
    (nid : String) (bh : Int) (lp sp : Peer)
    (hlp : s.peer_manager.get_peer nid = some lp)
    (hsp : s.peer_manager.get_peer s.peer_id = some sp)
    (hbh : bh = 0 ∨ ∃ lh, s.last_block_header_height = some lh ∧ bh = lh + 1) :
    ∃ s2 effs, reset_leader cfg s nid bh = some (s2, effs) ∧
      s2.peer_manager.leader = some lp ∧
      lp.peer_id = nid ∧
      s2.epoch_leader = some nid ∧
      (sp.target = lp.target →
        s2.peer_type = PeerType.BLOCK_GENERATOR ∧
          s2.machine = ChannelSMState.ConsensusLeader) ∧
      (sp.target ≠ lp.target →
        s2.peer_type = PeerType.PEER ∧
          s2.machine = ChannelSMState.ConsensusFollower) := by
  have hid : lp.peer_id = nid := PeerManager.get_peer_id _ _ _ hlp
  have hguard : leader_height_guard s bh = some false := by
    rcases hbh with rfl | ⟨lh, hlast, rfl⟩
    · simp [leader_height_guard]
    · by_cases hpos : (0:Int) < lh + 1
      · simp [leader_height_guard, hpos, hlast]
      · simp [leader_height_guard, hpos]
  by_cases htgt : sp.target = lp.target
  · have heq : reset_leader cfg s nid bh =
        some ({ s with
                  peer_manager := { s.peer_manager with leader := some lp },
                  machine := ChannelSMState.ConsensusLeader,
                  peer_type := PeerType.BLOCK_GENERATOR,
                  epoch_leader := some lp.peer_id },
              if cfg.consensus_algorithm_lft = false ∧
                  cfg.enable_rep_radio_station = true then
                [Effect.announce_new_leader lp.peer_id nid]
              else []) := by
      simp only [reset_leader, hguard, hlp, hsp, PeerManager.set_leader_peer,
        PeerManager.get_leader_peer]
      rw [if_pos htgt]
    exact ⟨_, _, heq, rfl, hid, by simpa using hid, fun _ => ⟨rfl, rfl⟩,
      fun hne => absurd htgt hne⟩
  · have heq : reset_leader cfg s nid bh =
        some ({ s with
                  peer_manager := { s.peer_manager with leader := some lp },
                  machine := ChannelSMState.ConsensusFollower,
                  peer_type := PeerType.PEER,
                  epoch_leader := some lp.peer_id },
              [Effect.subscribe_peer_call lp.peer_id]) := by
      simp only [reset_leader, hguard, hlp, hsp, PeerManager.set_leader_peer,
        PeerManager.get_leader_peer]
      rw [if_neg htgt]
    exact ⟨_, _, heq, rfl, hid, by simpa using hid, fun heq2 => absurd heq2 htgt,
      fun _ => ⟨rfl, rfl⟩⟩

/-- Witness for C2: known peer `"pB"` at the unconditional height 0. -/
theorem reset_leader_success_witness :
    sampleService.peer_manager.get_peer "pB" = some pB ∧
    sampleService.peer_manager.get_peer sampleService.peer_id = some pA ∧
    ∃ s2 effs, reset_leader sampleConf sampleService "pB" 0 = some (s2, effs) ∧
      s2.peer_manager.leader = some pB ∧
      pB.peer_id = "pB" ∧
      s2.epoch_leader = some "pB" ∧
      (pA.target = pB.target →
        s2.peer_type = PeerType.BLOCK_GENERATOR ∧
          s2.machine = ChannelSMState.ConsensusLeader) ∧
      (pA.target ≠ pB.target →
        s2.peer_type = PeerType.PEER ∧
          s2.machine = ChannelSMState.ConsensusFollower) :=
  ⟨rfl, rfl,
   reset_leader_success sampleConf sampleService "pB" 0 pB pA rfl rfl (Or.inl rfl)⟩

/-- C10: in the self-becomes-leader branch of `reset_leader` (with a
broadcast enabled: radio station on, lft algorithm off), the announcement
is built after the registry leader pointer has already been replaced, so
the complained-leader argument read back through `get_leader_peer()` equals
`new_leader_id`: the one broadcast emitted names `new_leader_id` as both
the old and the new leader, and the true previous leader id appears in no
emitted effect. -/
theorem reset_leader_announce_names_new_leader (cfg : Conf) (s : ChannelService)
    (nid : String) (bh : Int) (lp sp : Peer)
    (hlp : s.peer_manager.get_peer nid = some lp)
    (hsp : s.peer_manager.get_peer s.peer_id = some sp)
    (htgt : sp.target = lp.target)
    (hlft : cfg.consensus_algorithm_lft = false)
    (hrs : cfg.enable_rep_radio_station = true)
    (hbh : bh = 0 ∨ ∃ lh, s.last_block_header_height = some lh ∧ bh = lh + 1) :
    ∃ s2, reset_leader cfg s nid bh =
      some (s2, [Effect.announce_new_leader nid nid]) := by
  have hid : lp.peer_id = nid := PeerManager.get_peer_id _ _ _ hlp
  have hguard : leader_height_guard s bh = some false := by
    rcases hbh with rfl | ⟨lh, hlast, rfl⟩
    · simp [leader_height_guard]
    · by_cases hpos : (0:Int) < lh + 1
      · simp [leader_height_guard, hpos, hlast]
      · simp [leader_height_guard, hpos]
  have heq : reset_leader cfg s nid bh =
      some ({ s with
                peer_manager := { s.peer_manager with leader := some lp },
                machine := ChannelSMState.ConsensusLeader,
                peer_type := PeerType.BLOCK_GENERATOR,
                epoch_leader := some lp.peer_id },
            [Effect.announce_new_leader nid nid]) := by
    simp only [reset_leader, hguard, hlp, hsp, PeerManager.set_leader_peer,
      PeerManager.get_leader_peer]
    rw [if_pos htgt, if_pos ⟨hlft, hrs⟩, hid]
  exact ⟨_, heq⟩

/-- Witness for C10: resetting the leader to this node itself. -/
theorem reset_leader_announce_names_new_leader_witness :
    sampleService.peer_manager.get_peer "pA" = some pA ∧
    sampleService.peer_manager.get_peer sampleService.peer_id = some pA ∧
    pA.target = pA.target ∧
    sampleConf.consensus_algorithm_lft = false ∧
    sampleConf.enable_rep_radio_station = true ∧
    ∃ s2, reset_leader sampleConf sampleService "pA" 0 =
      some (s2, [Effect.announce_new_leader "pA" "pA"]) :=
  ⟨rfl, rfl, rfl, rfl, rfl,
   reset_leader_announce_names_new_leader sampleConf sampleService "pA" 0 pA pA
     rfl rfl rfl rfl rfl (Or.inl rfl)⟩

/-- The tail of the sync flow emits no leader complaint: the only complaint
call site is the missing-stub branch before it. -/
theorem sync_tail_no_complain (cfg : Conf) (s : ChannelService) (pl : Option Peer)
    (d : Bool) (ol : Option Peer) (g : String) (b : Bool) :
    Effect.leader_complain_rs g b ∉ (sync_tail cfg s pl d ol).1 := by
  unfold sync_tail
  dsimp only
  split
  · split <;> split <;> simp
  · split <;> simp

/-- C5: during `block_height_sync_channel`, when the resolved sync target is
remote and its stub is missing (unreachable endpoint), exactly one leader
complaint is issued to the radio station and it carries
`is_announce_new_peer = False` — a fresh election is requested with no
new-peer announcement. -/
theorem sync_unreachable_target_complains (cfg : Conf) (w : World)
    (s : ChannelService)
    (h1 : (sync_target_and_stub w s).1 ≠ s.peer_target)
    (h2 : (sync_target_and_stub w s).2 = false) :
    ∃ rest, (block_height_sync_channel cfg w s).1 =
        Effect.leader_complain_rs ALL_GROUP_ID false :: rest ∧
      ∀ g b, Effect.leader_complain_rs g b ∉ rest := by
  have hch : block_height_sync_channel cfg w s =
      (Effect.leader_complain_rs ALL_GROUP_ID false ::
        (sync_tail cfg s w.complain_result true s.peer_manager.get_leader_peer).1,
       (sync_tail cfg s w.complain_result true s.peer_manager.get_leader_peer).2) := by
    simp only [block_height_sync_channel]
    rw [if_neg h1]
    simp [h2]
  exact ⟨_, by rw [hch], fun g b => sync_tail_no_complain cfg s _ true _ g b⟩

/-- Witness for C5: the recorded leader `pB` is remote and unreachable. -/
theorem sync_unreachable_target_complains_witness :
    (sync_target_and_stub wUnreachable followerLeaderService).1 ≠
      followerLeaderService.peer_target ∧
    (sync_target_and_stub wUnreachable followerLeaderService).2 = false ∧
    ∃ rest,
      (block_height_sync_channel sampleConf wUnreachable followerLeaderService).1 =
        Effect.leader_complain_rs ALL_GROUP_ID false :: rest ∧
      ∀ g b, Effect.leader_complain_rs g b ∉ rest :=
  ⟨by decide, rfl,
   sync_unreachable_target_complains sampleConf wUnreachable followerLeaderService
     (by decide) rfl⟩

/-- C3 counterexample: with the registry resolving the leader to this node
itself at network evaluation, the state machine does reach
`ConsensusLeader` — but it visits `SubscribeNetwork` on the way, because
`evaluate_network` fires the `subscribe_network()` trigger for a
`BLOCK_GENERATOR`, contradicting "without ever visiting SubscribeNetwork". -/
theorem evaluate_network_leader_visits_subscribe_cex :
    sampleService.peer_manager.get_leader_peer = some pA ∧
    pA.peer_id = sampleService.peer_id ∧
    ChannelSMState.ConsensusLeader ∈
      (evaluate_network_journey sampleConf sampleService).1 ∧
    ChannelSMState.SubscribeNetwork ∈
      (evaluate_network_journey sampleConf sampleService).1 :=
  ⟨rfl, rfl, by decide, by decide⟩

/-- C3 (amended): when the registry resolves the leader to this node itself
(voting node, lft algorithm off), the journey from network evaluation is
exactly `SubscribeNetwork` then `ConsensusLeader`: the machine reaches
`ConsensusLeader` without ever visiting `BlockSync`, but it does pass
through `SubscribeNetwork` (where, as a `BLOCK_GENERATOR`, it performs no
height sync and skips the peer subscribe call). -/
theorem evaluate_network_leader_journey (cfg : Conf) (s : ChannelService)
    (pl : Peer)
    (hvote : cfg.node_function_vote = true)
    (hlft : cfg.consensus_algorithm_lft = false)
    (hld : s.peer_manager.get_leader_peer = some pl)
    (hpid : pl.peer_id = s.peer_id) :
    (evaluate_network_journey cfg s).1 =
      [ChannelSMState.SubscribeNetwork, ChannelSMState.ConsensusLeader] ∧
    ChannelSMState.BlockSync ∉ (evaluate_network_journey cfg s).1 ∧
    ∃ s2, (evaluate_network_journey cfg s).2.2 = some s2 ∧
      s2.machine = ChannelSMState.ConsensusLeader := by
  have hspt : set_peer_type_in_channel cfg s =
      (ready_to_height_sync { s with peer_type := PeerType.BLOCK_GENERATOR } true,
       some { s with peer_type := PeerType.BLOCK_GENERATOR }) := by
    simp only [set_peer_type_in_channel, hld]
    rw [if_pos ⟨hvote, hpid.symm⟩]
  have heval : evaluate_network cfg s =
      (ready_to_height_sync { s with peer_type := PeerType.BLOCK_GENERATOR } true,
       some { s with peer_type := PeerType.BLOCK_GENERATOR,
                     machine := ChannelSMState.SubscribeNetwork }) := by
    simp only [evaluate_network, hspt]
    simp
  have hpt : (generate_genesis_block
      { s with peer_type := PeerType.BLOCK_GENERATOR,
               machine := ChannelSMState.SubscribeNetwork }).1.peer_type =
      PeerType.BLOCK_GENERATOR := by
    rw [generate_genesis_preserves_peer_type]
  rcases hsv : subscribe_network cfg
      { s with peer_type := PeerType.BLOCK_GENERATOR,
               machine := ChannelSMState.SubscribeNetwork } with ⟨E, o⟩
  have ho : o = some { (generate_genesis_block
      { s with peer_type := PeerType.BLOCK_GENERATOR,
               machine := ChannelSMState.SubscribeNetwork }).1 with
      machine := ChannelSMState.ConsensusLeader } := by
    have h2 : (subscribe_network cfg
        { s with peer_type := PeerType.BLOCK_GENERATOR,
                 machine := ChannelSMState.SubscribeNetwork }).2 =
        some { (generate_genesis_block
          { s with peer_type := PeerType.BLOCK_GENERATOR,
                   machine := ChannelSMState.SubscribeNetwork }).1 with
          machine := ChannelSMState.ConsensusLeader } := by
      simp only [subscribe_network]
      rw [if_neg (show ¬ (cfg.consensus_algorithm_lft = true) by simp [hlft]),
        if_pos hpt]
    rw [hsv] at h2
    exact h2
  subst ho
  have hj : evaluate_network_journey cfg s =
      ([ChannelSMState.SubscribeNetwork, ChannelSMState.ConsensusLeader],
       ready_to_height_sync { s with peer_type := PeerType.BLOCK_GENERATOR } true ++ E,
       some { (generate_genesis_block
                { s with peer_type := PeerType.BLOCK_GENERATOR,
                         machine := ChannelSMState.SubscribeNetwork }).1 with
                machine := ChannelSMState.ConsensusLeader }) := by
    simp only [evaluate_network_journey, heval, hsv]
    simp
  rw [hj]
  exact ⟨rfl, by simp, ⟨_, rfl, rfl⟩⟩

/-- Witness for the amended C3 at the concrete leader-is-self state. -/
theorem evaluate_network_leader_journey_witness :
    sampleConf.node_function_vote = true ∧
    sampleConf.consensus_algorithm_lft = false ∧
    sampleService.peer_manager.get_leader_peer = some pA ∧
    pA.peer_id = sampleService.peer_id ∧
    (evaluate_network_journey sampleConf sampleService).1 =
      [ChannelSMState.SubscribeNetwork, ChannelSMState.ConsensusLeader] ∧
    ChannelSMState.BlockSync ∉ (evaluate_network_journey sampleConf sampleService).1 ∧
    ∃ s2, (evaluate_network_journey sampleConf sampleService).2.2 = some s2 ∧
      s2.machine = ChannelSMState.ConsensusLeader :=
  ⟨rfl, rfl, rfl, rfl,
   evaluate_network_leader_journey sampleConf sampleService pA rfl rfl rfl rfl⟩

end LoopchainChannel
